import Mathlib

/-!
Formalization of the chat-session controller and voice-capture loop of
Hidebar.py (class HidebarApp).  Pure I/O surfaces (the tkinter widgets, the
HTTP transport, the microphone) are modelled as explicit inputs: the outcome
of each network call or capture attempt is a value fed to the translated
function, and the UI calls the code makes (status-bar updates, chat-display
inserts, streaming-view appends) are returned as an explicit event list.
-/

/-- One entry of `self.conversation_history`: a dict with keys
role and content. -/
structure Turn where
  role : String
  content : String
deriving DecidableEq, Repr

/-- The mutable fields of `HidebarApp` the claims are about.
`inFlight` models "a `get_ollama_response` thread is outstanding":
`send_message` starts such a thread (line 510) and the thread ends when
`get_ollama_response` returns.  `requestsOpened` counts calls to
`requests.post` on the chat endpoint (line 523); each accepted
`send_message` starts one thread, which performs exactly one such call. -/
structure AppState where
  conversation_history : List Turn
  model : String
  inFlight : Bool
  requestsOpened : Nat
deriving DecidableEq, Repr

/-- Python `str.strip()` on the leading/trailing-whitespace model:
drop whitespace characters from the front of the character list. -/
def dropLeadingWS : List Char → List Char
  | [] => []
  | c :: rest => if c.isWhitespace then dropLeadingWS rest else c :: rest

/-- Python `str.strip()`: remove leading and trailing whitespace. -/
def strip (s : String) : String :=
  String.mk (List.reverse (dropLeadingWS (List.reverse (dropLeadingWS s.data))))

/-- Result of `send_message` in the vocabulary of the specification:
the early `return` on falsy input (line 494-495) is `Rejected`;
proceeding to append the turn and start the streaming thread is
`Accepted`. -/
inductive SubmitResult where
  | Rejected
  | Accepted
deriving DecidableEq, Repr

/-- `send_message` (lines 491-510): read the input field, strip it, return
early if empty; otherwise append a user turn to `conversation_history` and
start one `get_ollama_response` thread (which opens exactly one outbound
streaming request). -/
def send_message (st : AppState) (input : String) : SubmitResult × AppState :=
  let message := strip input
  if message = ("") then
    (SubmitResult.Rejected, st)
  else
    (SubmitResult.Accepted,
      { st with
          conversation_history := st.conversation_history ++ [Turn.mk ("user") message],
          inFlight := true,
          requestsOpened := st.requestsOpened + 1 })

/-- One raw line of the chunked response body, as seen by the loop at
lines 535-549: falsy (skipped by `if line:`), undecodable (the
`json.JSONDecodeError` branch), or decoded to a unit carrying
`message.content` (possibly empty, via `.get` defaults) and the `done`
flag. -/
inductive Line where
  | blank
  | malformed
  | ok (content : String) (done : Bool)
deriving DecidableEq, Repr

/-- The read loop of `get_ollama_response` (lines 535-549): returns the
accumulated `full_response` and, in order, the fragments passed to
`append_to_streaming` (one per decoded unit with non-empty content).
Reading stops at the first decoded unit whose `done` flag is set. -/
def read_stream : List Line → String × List String
  | [] => (("" : String), [])
  | Line.blank :: rest => read_stream rest
  | Line.malformed :: rest => read_stream rest
  | Line.ok content d :: rest =>
      let emits : List String := if content = ("") then [] else [content]
      if d then (content, emits)
      else
        let r := read_stream rest
        (content ++ r.1, emits ++ r.2)

/-- True when the list of raw lines contains a decoded unit with the
`done` flag set, i.e. the loop of lines 535-549 exits via `break`. -/
def reachesDone : List Line → Bool
  | [] => false
  | Line.ok _ d :: rest => d || reachesDone rest
  | Line.blank :: rest => reachesDone rest
  | Line.malformed :: rest => reachesDone rest

/-- Whether a raw line decodes successfully (reaches the body of the
inner `try` past `json.loads`). -/
def isDecoded : Line → Bool
  | Line.ok _ _ => true
  | Line.blank => false
  | Line.malformed => false

/-- Failure classification of a stream, matching the branches of
`get_ollama_response`: empty accumulated text (line 557-560), non-200
status (561-564), `requests.exceptions.Timeout` (566-569),
`requests.exceptions.ConnectionError` (570-573), generic exception
(574-579). -/
inductive FailKind where
  | EmptyResponse
  | ServerError (code : Nat)
  | Timeout
  | Unreachable
  | Other
deriving DecidableEq, Repr

/-- The UI-visible events posted by `get_ollama_response` via
`root.after`: `StreamStarted` is `start_streaming_message` (line 533),
`TokenAppended` is `append_to_streaming` (543), `StreamCompleted` is
`finish_streaming_message` plus the Ready status (554-555), and
`StreamFailed` is the status update plus system chat message of each
error branch. -/
inductive Event where
  | StreamStarted
  | TokenAppended (text : String)
  | StreamCompleted (fullText : String)
  | StreamFailed (kind : FailKind) (msg : String)
deriving DecidableEq, Repr

/-- Outcome of the `requests.post` call at lines 523-528: a response with
a status code and a body (a sequence of lines, plus the raw text used in
the non-200 error message), or one of the exceptions caught at lines
566-577. -/
inductive StreamOutcome where
  | response (status_code : Nat) (lines : List Line) (body : String)
  | timeout
  | connectionError
  | otherError (msg : String)
deriving DecidableEq, Repr

/-- `get_ollama_response` (lines 512-579), as a function of the current
state and the network outcome, returning the new state and the posted
events.  The thread ends when the function returns, so `inFlight` is
false in every branch of the result; the local `full_response`
accumulator is discarded with the stack frame and has no state field. -/
def get_ollama_response (st : AppState) (outcome : StreamOutcome) : AppState × List Event :=
  match outcome with
  | StreamOutcome.response code lines body =>
      if code = 200 then
        let full := (read_stream lines).1
        let emits := (read_stream lines).2
        if full = ("") then
          ({ st with inFlight := false },
           Event.StreamStarted :: emits.map Event.TokenAppended
             ++ [Event.StreamFailed FailKind.EmptyResponse ("No response received from model")])
        else
          ({ st with
               conversation_history := st.conversation_history ++ [Turn.mk ("assistant") full],
               inFlight := false },
           Event.StreamStarted :: emits.map Event.TokenAppended
             ++ [Event.StreamCompleted full])
      else
        ({ st with inFlight := false },
         [Event.StreamFailed (FailKind.ServerError code)
            (("Error: ") ++ toString code ++ (" - ") ++ String.mk (body.data.take 200))])
  | StreamOutcome.timeout =>
      ({ st with inFlight := false },
       [Event.StreamFailed FailKind.Timeout
          ("Request timed out. The model might be too slow or not responding.")])
  | StreamOutcome.connectionError =>
      ({ st with inFlight := false },
       [Event.StreamFailed FailKind.Unreachable
          ("Cannot connect to Ollama. Make sure it is running.")])
  | StreamOutcome.otherError msg =>
      ({ st with inFlight := false },
       [Event.StreamFailed FailKind.Other (("Error: ") ++ msg)])

/-- Concatenation of a list of strings in order. -/
def concatStrings : List String → String
  | [] => ("")
  | s :: rest => s ++ concatStrings rest

/-- `process_voice_input` (lines 791-811): strip the recognized text and
return the text forwarded to `send_message`, or `none` when the text is
discarded by the guard `if not text or len(text) < 2`. -/
def process_voice_input (text : String) : Option String :=
  let t := strip text
  if t = ("") ∨ t.length < 2 then none
  else some t

/-- Outcome of the `tags` query in `load_available_models` (lines
443-463): a response carrying the status code and the extracted model
names, a `ConnectionError`, or another exception. -/
inductive TagsOutcome where
  | ok (status_code : Nat) (models : List String)
  | connError
  | otherError (msg : String)
deriving DecidableEq, Repr

/-- `load_available_models` (lines 443-463), as a function of the state
and the query outcome, returning the new state and the status-bar text
it posts. -/
def load_available_models (st : AppState) (outcome : TagsOutcome) : AppState × String :=
  match outcome with
  | TagsOutcome.ok code models =>
      if code = 200 then
        if models = [] then
          (st, ("No models found. Please pull a model first."))
        else
          let st2 :=
            if st.model ∈ models then st
            else { st with model := models.headD st.model }
          (st2, ("Connected to Ollama"))
      else
        (st, ("Ollama returned an error"))
  | TagsOutcome.connError =>
      (st, ("Cannot connect to Ollama. Make sure it is running on localhost:11434"))
  | TagsOutcome.otherError msg =>
      (st, (("Error: ") ++ msg))

/-- One iteration of the `while self.is_listening` loop in
`listen_continuously` (lines 707-789): what `recognizer.listen` plus
`recognize_google` produced.  `OtherError` carries whether the
recalibration attempt of lines 777-783 would succeed, since on its
failure the bare `except: pass` leaves the counter unreset. -/
inductive VoiceEvent where
  | WaitTimeout
  | Recognized (text : String)
  | UnknownValue
  | RequestError (msg : String)
  | OtherError (msg : String) (recalibOk : Bool)
deriving DecidableEq, Repr

/-- Observable actions of one voice-loop iteration: a status-bar update,
a successful `adjust_for_ambient_noise` recalibration, or a forward of
recognized text into `process_voice_input`/`send_message`. -/
inductive VoiceAction where
  | Status (msg : String)
  | Recalibrate
  | Submit (text : String)
deriving DecidableEq, Repr

/-- `max_errors` at line 710. -/
def max_errors : Nat := 5

/-- One iteration of `listen_continuously` (lines 712-789) on the
`consecutive_errors` counter, returning the new counter and the actions
performed, in order.  Branches: `sr.WaitTimeoutError` (765-767) leaves
the counter alone; success (731-740) resets it and forwards the text;
`sr.UnknownValueError` (742-748) increments and at the cap posts a hint
and resets; `sr.RequestError` (750-763) increments, posts the error and
at the cap posts a hint and resets (with no recalibration); the generic
`except` (769-789) increments, posts the error and at the cap attempts
recalibration, resetting only when it succeeds. -/
def listen_step : Nat → VoiceEvent → Nat × List VoiceAction
  | c, VoiceEvent.WaitTimeout => (c, [])
  | c, VoiceEvent.Recognized text =>
      if text ≠ ("") ∧ 0 < (strip text).length then
        (0, (VoiceAction.Status ("🔍 Processing speech...")) ::
            (match process_voice_input text with
             | some t => [VoiceAction.Submit t]
             | none => []))
      else
        (c, [VoiceAction.Status ("🔍 Processing speech...")])
  | c, VoiceEvent.UnknownValue =>
      let c2 := c + 1
      if max_errors ≤ c2 then
        (0, [VoiceAction.Status ("🔍 Processing speech..."),
             VoiceAction.Status ("🎤 Listening... (speak louder or clearer)")])
      else
        (c2, [VoiceAction.Status ("🔍 Processing speech...")])
  | c, VoiceEvent.RequestError msg =>
      let c2 := c + 1
      let errStatus := VoiceAction.Status (("Speech API error: ") ++ String.mk (msg.data.take 50))
      if max_errors ≤ c2 then
        (0, [VoiceAction.Status ("🔍 Processing speech..."), errStatus,
             VoiceAction.Status ("🎤 Listening... (check internet connection)")])
      else
        (c2, [VoiceAction.Status ("🔍 Processing speech..."), errStatus])
  | c, VoiceEvent.OtherError msg recalibOk =>
      let c2 := c + 1
      let errStatus := VoiceAction.Status (("Error: ") ++ String.mk (msg.data.take 40))
      if max_errors ≤ c2 then
        if recalibOk then
          (0, [errStatus, VoiceAction.Recalibrate,
               VoiceAction.Status ("🎤 Recalibrated - Listening...")])
        else
          (c2, [errStatus])
      else
        (c2, [errStatus])

/-- A fresh state as built in `__init__`: empty history, default model. -/
def st0 : AppState :=
  { conversation_history := [], model := ("llama3.2:latest"),
    inFlight := false, requestsOpened := 0 }

/-- A state with a streaming thread outstanding. -/
def stBusy : AppState := { st0 with inFlight := true }

/-- The two-line example stream of the specification scenario. -/
def exLines : List Line := [Line.ok ("Hi") false, Line.ok (" there") true]

/-- The example stream with a malformed line interleaved. -/
def exLinesMal : List Line :=
  [Line.ok ("Hi") false, Line.malformed, Line.ok (" there") true]

/-- Lines arriving on the wire after the done unit. -/
def exPost : List Line := [Line.ok ("IGNORED") false]

/-- A concrete error message. -/
def exMsg : String := ("boom")

/-- The done-flag-with-no-content line used for the empty-response case. -/
def exEmptyLines : List Line := [Line.ok ("") true]

/-- Which accumulated text a stream outcome would produce on its 200
branch; used to state that history grows only with that text. -/
def fullOf : StreamOutcome → String
  | StreamOutcome.response _ ls _ => (read_stream ls).1
  | StreamOutcome.timeout => ("")
  | StreamOutcome.connectionError => ("")
  | StreamOutcome.otherError _ => ("")

/-- Appending the empty string on the left is the identity. -/
theorem string_empty_append (s : String) : ("" : String) ++ s = s := rfl

/-- `concatStrings` distributes over list append. -/
theorem concatStrings_append (a b : List String) :
    concatStrings (a ++ b) = concatStrings a ++ concatStrings b := by
  induction a with
  | nil => simp [concatStrings, string_empty_append]
  | cons s t ih => simp [concatStrings, ih, String.append_assoc]

/-- The fragments handed to `append_to_streaming` concatenate, in order,
to the accumulated `full_response` of the read loop. -/
theorem read_stream_concat (lines : List Line) :
    concatStrings (read_stream lines).2 = (read_stream lines).1 := by
  induction lines with
  | nil => rfl
  | cons l rest ih =>
    cases l with
    | blank => simpa [read_stream] using ih
    | malformed => simpa [read_stream] using ih
    | ok c d =>
      cases d with
      | true =>
        by_cases hc : c = ("")
        · subst hc; simp [read_stream, concatStrings]
        · simp [read_stream, hc, concatStrings]
      | false =>
        by_cases hc : c = ("")
        · subst hc
          simpa [read_stream, concatStrings, string_empty_append] using ih
        · simp [read_stream, hc, concatStrings, concatStrings_append, ih,
                string_empty_append]

/-- Claim C2: for a stream that completes normally (status 200 and
non-empty accumulated text), the concatenation in delivery order of the
`TokenAppended` fragments equals the accumulated text, which is both the
argument of the final `StreamCompleted` event and the content of the
assistant turn appended to the history. -/
theorem C2_stream_concat (st : AppState) (lines : List Line) (body : String)
    (h : (read_stream lines).1 ≠ ("")) :
    concatStrings ((read_stream lines).2) = (read_stream lines).1
    ∧ (get_ollama_response st (StreamOutcome.response 200 lines body)).2
        = Event.StreamStarted :: ((read_stream lines).2.map Event.TokenAppended)
            ++ [Event.StreamCompleted ((read_stream lines).1)]
    ∧ (get_ollama_response st (StreamOutcome.response 200 lines body)).1.conversation_history
        = st.conversation_history ++ [Turn.mk ("assistant") ((read_stream lines).1)] := by
  refine ⟨read_stream_concat lines, ?_, ?_⟩ <;> simp [get_ollama_response, h]

/-- Concrete instance of claim C2 on the two-fragment example stream. -/
theorem C2_stream_concat_witness :
    (read_stream exLines).1 ≠ ("")
    ∧ (concatStrings ((read_stream exLines).2) = (read_stream exLines).1
       ∧ (get_ollama_response st0 (StreamOutcome.response 200 exLines (""))).2
           = Event.StreamStarted :: ((read_stream exLines).2.map Event.TokenAppended)
               ++ [Event.StreamCompleted ((read_stream exLines).1)]
       ∧ (get_ollama_response st0 (StreamOutcome.response 200 exLines (""))).1.conversation_history
           = st0.conversation_history ++ [Turn.mk ("assistant") ((read_stream exLines).1)]) :=
  ⟨by decide, C2_stream_concat st0 exLines ("") (by decide)⟩

/-- Claim C4: a 200 stream whose accumulated text is empty yields the
empty-response failure event, appends no assistant turn, and leaves the
history (hence its length) unchanged. -/
theorem C4_empty_response (st : AppState) (lines : List Line) (body : String)
    (h : (read_stream lines).1 = ("")) :
    (get_ollama_response st (StreamOutcome.response 200 lines body)).1.conversation_history
      = st.conversation_history
    ∧ ((get_ollama_response st (StreamOutcome.response 200 lines body)).1.conversation_history).length
      = st.conversation_history.length
    ∧ (get_ollama_response st (StreamOutcome.response 200 lines body)).2
      = Event.StreamStarted :: ((read_stream lines).2.map Event.TokenAppended)
          ++ [Event.StreamFailed FailKind.EmptyResponse ("No response received from model")] := by
  simp [get_ollama_response, h]

/-- Concrete instance of claim C4 on a stream whose only unit carries the
done flag and no content. -/
theorem C4_empty_response_witness :
    (read_stream exEmptyLines).1 = ("")
    ∧ ((get_ollama_response st0 (StreamOutcome.response 200 exEmptyLines (""))).1.conversation_history
         = st0.conversation_history
       ∧ ((get_ollama_response st0 (StreamOutcome.response 200 exEmptyLines (""))).1.conversation_history).length
         = st0.conversation_history.length
       ∧ (get_ollama_response st0 (StreamOutcome.response 200 exEmptyLines (""))).2
         = Event.StreamStarted :: ((read_stream exEmptyLines).2.map Event.TokenAppended)
             ++ [Event.StreamFailed FailKind.EmptyResponse ("No response received from model")]) :=
  ⟨by decide, C4_empty_response st0 exEmptyLines ("") (by decide)⟩

/-- Claim C5: the read loop is insensitive to lines that fail to decode
(and to blank lines): its result depends only on the decoded units, so a
malformed line is skipped rather than aborting the stream, and the
example stream with an interleaved malformed line still reaches its
completion flag and accumulates the full text. -/
theorem C5_malformed_skipped :
    (∀ lines : List Line, read_stream lines = read_stream (lines.filter isDecoded))
    ∧ (∀ (st : AppState) (lines : List Line) (body : String),
        get_ollama_response st (StreamOutcome.response 200 lines body)
          = get_ollama_response st (StreamOutcome.response 200 (lines.filter isDecoded) body))
    ∧ read_stream exLinesMal = read_stream exLines
    ∧ (read_stream exLinesMal).1 = ("Hi there")
    ∧ reachesDone exLinesMal = true := by
  have hfilter : ∀ lines : List Line, read_stream lines = read_stream (lines.filter isDecoded) := by
    intro lines
    induction lines with
    | nil => rfl
    | cons l rest ih =>
      cases l with
      | blank => simpa [read_stream, isDecoded] using ih
      | malformed => simpa [read_stream, isDecoded] using ih
      | ok c d =>
        cases d with
        | true => simp [read_stream, isDecoded]
        | false => simp [read_stream, isDecoded, ih]
  refine ⟨hfilter, ?_, by decide, by decide, by decide⟩
  intro st lines body
  simp only [get_ollama_response, hfilter lines]

/-- Claim C6: once the raw lines consumed so far contain a unit with the
done flag, any lines arriving afterwards change neither the accumulated
text nor the emitted fragments. -/
theorem C6_stop_at_done (xs post : List Line) (h : reachesDone xs = true) :
    read_stream (xs ++ post) = read_stream xs := by
  induction xs with
  | nil => simp [reachesDone] at h
  | cons l rest ih =>
    cases l with
    | blank =>
      simp only [reachesDone] at h
      simpa [read_stream] using ih h
    | malformed =>
      simp only [reachesDone] at h
      simpa [read_stream] using ih h
    | ok c d =>
      cases d with
      | true => simp [read_stream]
      | false =>
        simp only [reachesDone, Bool.false_or] at h
        simp [read_stream, ih h]

/-- Concrete instance of claim C6: the example stream followed by a
further line on the wire produces the same result as the stream alone. -/
theorem C6_stop_at_done_witness :
    reachesDone exLines = true
    ∧ read_stream (exLines ++ exPost) = read_stream exLines :=
  ⟨by decide, C6_stop_at_done exLines exPost (by decide)⟩

/-- Claim C1 as stated fails on the code: `send_message` has no in-flight
guard.  With a streaming thread outstanding (`inFlight = true`), a
non-empty submission is not rejected, appends a user turn to the
history, and opens another outbound request. -/
theorem C1_counterexample :
    stBusy.inFlight = true
    ∧ (send_message stBusy ("hello")).1 ≠ SubmitResult.Rejected
    ∧ (send_message stBusy ("hello")).2.conversation_history ≠ stBusy.conversation_history
    ∧ (send_message stBusy ("hello")).2.requestsOpened = stBusy.requestsOpened + 1 := by
  decide

/-- Claim C1 amended: `send_message` ignores whether a stream is
outstanding.  For any state, a submission whose stripped text is
non-empty is accepted, appends the user turn, and opens one more
outbound request; only empty or whitespace-only text is rejected. -/
theorem C1_no_inflight_guard (st : AppState) (input : String)
    (h : strip input ≠ ("")) :
    (send_message st input).1 = SubmitResult.Accepted
    ∧ (send_message st input).2.conversation_history
        = st.conversation_history ++ [Turn.mk ("user") (strip input)]
    ∧ (send_message st input).2.requestsOpened = st.requestsOpened + 1
    ∧ (send_message st input).2.inFlight = true := by
  simp [send_message, h]

/-- Concrete instance of amended claim C1 with a stream outstanding. -/
theorem C1_no_inflight_guard_witness :
    strip ("hello") ≠ ("")
    ∧ ((send_message stBusy ("hello")).1 = SubmitResult.Accepted
       ∧ (send_message stBusy ("hello")).2.conversation_history
           = stBusy.conversation_history ++ [Turn.mk ("user") (strip ("hello"))]
       ∧ (send_message stBusy ("hello")).2.requestsOpened = stBusy.requestsOpened + 1
       ∧ (send_message stBusy ("hello")).2.inFlight = true) :=
  ⟨by decide, C1_no_inflight_guard stBusy ("hello") (by decide)⟩

/-- Claim C3: every failure branch of `get_ollama_response` (non-200
status, timeout, connection error, other exception) leaves the history
exactly as received and ends with no stream outstanding; and for any
outcome at all, the history is either unchanged or extended by exactly
the assistant turn of a completed stream. -/
theorem C3_failure_no_mutation (st : AppState) (code : Nat) (lines : List Line)
    (body msg : String) (oc : StreamOutcome) (h : code ≠ 200) :
    ((get_ollama_response st (StreamOutcome.response code lines body)).1.conversation_history
        = st.conversation_history
      ∧ (get_ollama_response st (StreamOutcome.response code lines body)).1.inFlight = false)
    ∧ ((get_ollama_response st StreamOutcome.timeout).1.conversation_history
        = st.conversation_history
      ∧ (get_ollama_response st StreamOutcome.timeout).1.inFlight = false)
    ∧ ((get_ollama_response st StreamOutcome.connectionError).1.conversation_history
        = st.conversation_history
      ∧ (get_ollama_response st StreamOutcome.connectionError).1.inFlight = false)
    ∧ ((get_ollama_response st (StreamOutcome.otherError msg)).1.conversation_history
        = st.conversation_history
      ∧ (get_ollama_response st (StreamOutcome.otherError msg)).1.inFlight = false)
    ∧ ((get_ollama_response st oc).1.conversation_history = st.conversation_history
       ∨ ((get_ollama_response st oc).1.conversation_history
            = st.conversation_history ++ [Turn.mk ("assistant") (fullOf oc)]
          ∧ Event.StreamCompleted (fullOf oc) ∈ (get_ollama_response st oc).2)) := by
  refine ⟨by simp [get_ollama_response, h], by simp [get_ollama_response],
          by simp [get_ollama_response], by simp [get_ollama_response], ?_⟩
  cases oc with
  | response c2 ls b =>
    by_cases h200 : c2 = 200
    · subst h200
      by_cases hf : (read_stream ls).1 = ("")
      · left; simp [get_ollama_response, hf]
      · right; simp [get_ollama_response, hf, fullOf]

    · left; simp [get_ollama_response, h200]
  | timeout => left; simp [get_ollama_response]
  | connectionError => left; simp [get_ollama_response]
  | otherError m => left; simp [get_ollama_response]

/-- Concrete instance of claim C3 at status 500 and a timeout outcome. -/
theorem C3_failure_no_mutation_witness :
    (500 : Nat) ≠ 200
    ∧ (((get_ollama_response st0 (StreamOutcome.response 500 exLines (""))).1.conversation_history
          = st0.conversation_history
        ∧ (get_ollama_response st0 (StreamOutcome.response 500 exLines (""))).1.inFlight = false)
      ∧ ((get_ollama_response st0 StreamOutcome.timeout).1.conversation_history
          = st0.conversation_history
        ∧ (get_ollama_response st0 StreamOutcome.timeout).1.inFlight = false)
      ∧ ((get_ollama_response st0 StreamOutcome.connectionError).1.conversation_history
          = st0.conversation_history
        ∧ (get_ollama_response st0 StreamOutcome.connectionError).1.inFlight = false)
      ∧ ((get_ollama_response st0 (StreamOutcome.otherError exMsg)).1.conversation_history
          = st0.conversation_history
        ∧ (get_ollama_response st0 (StreamOutcome.otherError exMsg)).1.inFlight = false)
      ∧ ((get_ollama_response st0 StreamOutcome.timeout).1.conversation_history
            = st0.conversation_history
         ∨ ((get_ollama_response st0 StreamOutcome.timeout).1.conversation_history
              = st0.conversation_history ++ [Turn.mk ("assistant") (fullOf StreamOutcome.timeout)]
            ∧ Event.StreamCompleted (fullOf StreamOutcome.timeout)
                ∈ (get_ollama_response st0 StreamOutcome.timeout).2))) :=
  ⟨by decide, C3_failure_no_mutation st0 500 exLines ("") exMsg StreamOutcome.timeout (by decide)⟩

/-- Claim C9: a submission whose text strips to the empty string is
rejected with the state returned untouched: no turn appended, no request
opened, the in-flight marker not set. -/
theorem C9_empty_reject (st : AppState) (input : String)
    (h : strip input = ("")) :
    send_message st input = (SubmitResult.Rejected, st) := by
  simp [send_message, h]

/-- Concrete instance of claim C9 on a whitespace-only submission. -/
theorem C9_empty_reject_witness :
    strip ("   ") = ("")
    ∧ send_message st0 ("   ") = (SubmitResult.Rejected, st0) :=
  ⟨by decide, C9_empty_reject st0 ("   ") (by decide)⟩

/-- Claim C7 as stated fails on the code: when the failure cap is
reached through recognition-service/network errors (`sr.RequestError`),
the loop resets the counter to 0 but performs no recalibration — the
iteration emits only status updates, never a `Recalibrate` action. -/
theorem C7_counterexample :
    (listen_step 4 (VoiceEvent.RequestError exMsg)).1 = 0
    ∧ VoiceAction.Recalibrate ∉ (listen_step 4 (VoiceEvent.RequestError exMsg)).2 := by
  decide

/-- Claim C7 amended: when the increment reaches the cap, the
recognition-service/network error branch resets the counter to 0 with a
status hint but no recalibration, as does the unintelligible-audio
branch; recalibration-and-reset happens only in the generic error
branch, and only when the recalibration attempt succeeds.  From any
counter below the cap, one iteration never leaves the counter above the
cap. -/
theorem C7_cap_reset (c c2 : Nat) (msg : String) (ev : VoiceEvent)
    (h : c + 1 = max_errors) (h2 : c2 < max_errors) :
    (listen_step c (VoiceEvent.RequestError msg)).1 = 0
    ∧ VoiceAction.Recalibrate ∉ (listen_step c (VoiceEvent.RequestError msg)).2
    ∧ (listen_step c VoiceEvent.UnknownValue).1 = 0
    ∧ VoiceAction.Recalibrate ∉ (listen_step c VoiceEvent.UnknownValue).2
    ∧ (listen_step c (VoiceEvent.OtherError msg true)).1 = 0
    ∧ VoiceAction.Recalibrate ∈ (listen_step c (VoiceEvent.OtherError msg true)).2
    ∧ (listen_step c2 ev).1 ≤ max_errors := by
  have hc : c = 4 := by simp [max_errors] at h; omega
  subst hc
  simp only [max_errors] at h2
  refine ⟨?_, ?_, ?_, ?_, ?_, ?_, ?_⟩
  · simp [listen_step, max_errors]
  · simp [listen_step, max_errors]
  · simp [listen_step, max_errors]
  · simp [listen_step, max_errors]
  · simp [listen_step, max_errors]
  · simp [listen_step, max_errors]
  · cases ev with
    | WaitTimeout => simp [listen_step, max_errors]; omega
    | Recognized t =>
      simp only [listen_step, max_errors]
      split
      · simp
      · simp; omega
    | UnknownValue =>
      simp only [listen_step, max_errors]
      split
      · simp
      · simp; omega
    | RequestError m =>
      simp only [listen_step, max_errors]
      split
      · simp
      · simp; omega
    | OtherError m rOk =>
      simp only [listen_step, max_errors]
      split
      · split
        · simp
        · simp; omega
      · simp; omega

/-- Concrete instance of amended claim C7 at the cap. -/
theorem C7_cap_reset_witness :
    4 + 1 = max_errors
    ∧ 3 < max_errors
    ∧ ((listen_step 4 (VoiceEvent.RequestError exMsg)).1 = 0
       ∧ VoiceAction.Recalibrate ∉ (listen_step 4 (VoiceEvent.RequestError exMsg)).2
       ∧ (listen_step 4 VoiceEvent.UnknownValue).1 = 0
       ∧ VoiceAction.Recalibrate ∉ (listen_step 4 VoiceEvent.UnknownValue).2
       ∧ (listen_step 4 (VoiceEvent.OtherError exMsg true)).1 = 0
       ∧ VoiceAction.Recalibrate ∈ (listen_step 4 (VoiceEvent.OtherError exMsg true)).2
       ∧ (listen_step 3 VoiceEvent.UnknownValue).1 ≤ max_errors) :=
  ⟨by decide, by decide,
   C7_cap_reset 4 3 exMsg VoiceEvent.UnknownValue (by decide) (by decide)⟩

/-- Claim C8: `process_voice_input` forwards the stripped text exactly
when its length is at least 2 and discards it otherwise; in particular
a recognized two-character text is forwarded and a one-character text is
dropped silently. -/
theorem C8_length_gate :
    (∀ text : String,
       process_voice_input text
         = if 2 ≤ (strip text).length then some (strip text) else none)
    ∧ process_voice_input ("ok") = some ("ok")
    ∧ process_voice_input ("a") = none := by
  refine ⟨?_, by decide, by decide⟩
  intro text
  by_cases h2 : 2 ≤ (strip text).length
  · have hcond : ¬ (strip text = ("") ∨ (strip text).length < 2) := by
      rintro (he | hl)
      · rw [he] at h2; simp [String.length] at h2
      · omega
    simp [process_voice_input, hcond, h2]
  · have hcond : strip text = ("") ∨ (strip text).length < 2 := Or.inr (by omega)
    simp [process_voice_input, hcond, h2]

/-- Claim C10: when the tags query returns status 200 with a non-empty
model list that does not contain the current model, `load_available_models`
replaces the model with the first listed identifier, leaves the
conversation history untouched, and reports a connected status. -/
theorem C10_model_fallback (st : AppState) (m : String) (ms : List String)
    (h : st.model ∉ m :: ms) :
    ((load_available_models st (TagsOutcome.ok 200 (m :: ms))).1).model = m
    ∧ ((load_available_models st (TagsOutcome.ok 200 (m :: ms))).1).conversation_history
        = st.conversation_history
    ∧ (load_available_models st (TagsOutcome.ok 200 (m :: ms))).2
        = ("Connected to Ollama") := by
  simp [load_available_models, h]

/-- Concrete instance of claim C10: the default model is not in the
returned list, so the first listed model is adopted. -/
theorem C10_model_fallback_witness :
    st0.model ∉ (("mistral:7b") : String) :: ([] : List String)
    ∧ (((load_available_models st0 (TagsOutcome.ok 200 [("mistral:7b")])).1).model = ("mistral:7b")
       ∧ ((load_available_models st0 (TagsOutcome.ok 200 [("mistral:7b")])).1).conversation_history
           = st0.conversation_history
       ∧ (load_available_models st0 (TagsOutcome.ok 200 [("mistral:7b")])).2
           = ("Connected to Ollama")) :=
  ⟨by decide, C10_model_fallback st0 ("mistral:7b") [] (by decide)⟩
